import Mathlib

/-!
Verification development for the SREM.sa bridge extension.

Shallow embedding of the trust-gated bridge protocol of the repository:
the `DomainWhitelist` trust store (`extension/background.js`), the approval
decision flow (`pendingApprovals` in `extension/background.js`), the
per-record fetch classification (`handleDeedRequest`), the response
formatter (`extension/response-formatter.js` / `shared-utils.js`), the
request validation layer (`RequestBuilder` in `shared-utils.js`), and the
reply-targeting logic of the bridge content script
(`extension/bridge_content.js`).

JavaScript machine integers/timestamps are modelled as `Int`, JS `Map`s as
functions into `Option`, JS strings as Lean `String` (with `List Char`
views where character-level reasoning is needed), and JS dynamic values as
the inductive `JSVal` below.
-/

namespace Srem

/-! ## JavaScript primitives -/

/-- The object `requestApproval` resolves with
(`extension/background.js`): `{approved, expiresAt?, reason}`. -/
structure ApprovalFlowResult where
  approved : Bool
  expiresAt : Option String
  reason : String
deriving DecidableEq

/-- Dynamic JavaScript values, as far as the bridge code inspects them:
`undefined`, `null`, booleans, (integer) numbers, strings, opaque
objects, and the approval-result object that crosses the
`chrome.runtime.sendMessage` response channel. -/
inductive JSVal where
  | undef : JSVal
  | null : JSVal
  | bool (b : Bool) : JSVal
  | num (n : Int) : JSVal
  | str (s : String) : JSVal
  | obj : JSVal
  | approvalObj (r : ApprovalFlowResult) : JSVal
deriving DecidableEq

/-- JavaScript truthiness: `undefined`, `null`, `false`, `0` and `""` are
falsy; every other value, in particular every object, is truthy. -/
def jsTruthy : JSVal → Bool
  | .undef => false
  | .null => false
  | .bool b => b
  | .num n => n != 0
  | .str s => s != ""
  | .obj => true
  | .approvalObj _ => true

/-- The characters matched by `\s` (and the explicit `\n`, `\r`) in the
deed-number separator regex: ASCII whitespace. -/
def isJsSpace (c : Char) : Bool :=
  c = ' ' ∨ c = '\t' ∨ c = '\n' ∨ c = '\r' ∨ c = '\x0b' ∨ c = '\x0c'

/-- The character class of the separator regex `[,;\s:\n\r]` used by
`RequestBuilder.parseDeedNumbers`. -/
def isDeedSep (c : Char) : Bool :=
  c = ',' ∨ c = ';' ∨ c = ':' ∨ isJsSpace c

/-- JavaScript `String.prototype.trim` on a character list: strip leading
and trailing whitespace. -/
def jsTrim (cs : List Char) : List Char :=
  ((cs.dropWhile isJsSpace).reverse.dropWhile isJsSpace).reverse

/-- Numeric value of a list of decimal digit characters. -/
def digitsVal (ds : List Char) : Nat :=
  ds.foldl (fun a c => 10 * a + (c.toNat - '0'.toNat)) 0

/-- JavaScript `parseInt` (radix 10): skip leading whitespace, an optional
sign, then read the maximal run of leading decimal digits; `NaN` (here
`none`) if that run is empty. -/
def parseIntJS (s : String) : Option Int :=
  let cs := s.data.dropWhile isJsSpace
  match cs with
  | '-' :: rest =>
      let ds := rest.takeWhile Char.isDigit
      if ds.isEmpty then none else some (-(digitsVal ds : Int))
  | '+' :: rest =>
      let ds := rest.takeWhile Char.isDigit
      if ds.isEmpty then none else some (digitsVal ds : Int)
  | _ =>
      let ds := cs.takeWhile Char.isDigit
      if ds.isEmpty then none else some (digitsVal ds : Int)

/-- JavaScript `String(value)` for the primitive values the bridge
converts with `_safeString`. -/
def jsValToString : JSVal → String
  | .undef => "undefined"
  | .null => "null"
  | .bool true => "true"
  | .bool false => "false"
  | .num n => toString n
  | .str s => s
  | .obj => "[object Object]"
  | .approvalObj _ => "[object Object]"

/-- JavaScript `Number(value)` restricted to the integer-valued inputs the
bridge handles; `none` models `NaN`. -/
def jsValToNumber : JSVal → Option Int
  | .undef => none
  | .null => some 0
  | .bool true => some 1
  | .bool false => some 0
  | .num n => some n
  | .str s =>
      let t := s.data.dropWhile isJsSpace
      let t := t.reverse.dropWhile isJsSpace |>.reverse
      match t with
      | [] => some 0
      | '-' :: rest => if rest ≠ [] ∧ rest.all Char.isDigit then some (-(digitsVal rest : Int)) else none
      | '+' :: rest => if rest ≠ [] ∧ rest.all Char.isDigit then some (digitsVal rest : Int) else none
      | _ => if t.all Char.isDigit then some (digitsVal t : Int) else none
  | .obj => none
  | .approvalObj _ => none

/-- JavaScript `a || b` for a possibly-absent, possibly-empty string `a`:
falls through on `undefined`/`null` and on the empty string. -/
def jsOrStr (v : Option String) (fallback : String) : String :=
  match v with
  | some s => if s = "" then fallback else s
  | none => fallback

/-! ## TrustStore: `DomainWhitelist` (`extension/background.js`)

The whitelist is a `Map` from origin to an entry
`{approved, expires, days, uses, lastUsed}`.  Time is the JS millisecond
clock (`Date.now()`), modelled as an `Int` argument threaded explicitly.
`isApproved` both answers and mutates (lazy expiry deletion, use-count
update), so it returns the updated map alongside the boolean. -/

/-- Entry stored by `DomainWhitelist` for one origin. -/
structure DomainData where
  approved : Int
  expires : Int
  days : Int
  uses : Nat
  lastUsed : Int
deriving DecidableEq

/-- The whitelist `Map`, modelled as a function from origin to optional
entry. -/
def Whitelist := String → Option DomainData

/-- Update one key of a whitelist map. -/
def Whitelist.set (w : Whitelist) (k : String) (v : Option DomainData) : Whitelist :=
  fun x => if x = k then v else w x

namespace DomainWhitelist

/-- `DomainWhitelist.isApproved(origin)`: absent entry answers `false`;
an entry with `Date.now() > domain.expires` is deleted and answers
`false`; otherwise `lastUsed`/`uses` are updated and it answers `true`. -/
def isApproved (now : Int) (w : Whitelist) (origin : String) : Bool × Whitelist :=
  match w origin with
  | none => (false, w)
  | some domain =>
      if now > domain.expires then
        (false, w.set origin none)
      else
        (true, w.set origin (some { domain with lastUsed := now, uses := domain.uses + 1 }))

/-- `DomainWhitelist.approve(origin, days)`: overwrite the entry with a
fresh window `expires = Date.now() + days*24*60*60*1000`. -/
def approve (now : Int) (w : Whitelist) (origin : String) (days : Int := 60) : Whitelist :=
  w.set origin (some
    { approved := now
      expires := now + days * 24 * 60 * 60 * 1000
      days := days
      uses := 0
      lastUsed := now })

end DomainWhitelist

/-! ## ApprovalFlow: `pendingApprovals` and `requestApproval`
(`extension/background.js` lines 14, 47-120, 373-404)

Trace model of the approval subsystem for one fixed origin.  The shared
state holds the `pendingApprovals` map entry for that origin (`pending`),
and per-invocation bookkeeping: whether invocation `i` was started,
whether its 30-second timer was cleared (`clearTimeout`) or has fired,
whether its `windowCloseListener` is still registered, and — crucially —
the list of values its promise `resolve` was called with.  Invocation `i`
opens popup window `i` (each `chrome.windows.create` call returns a fresh
window id).

Events: `start i` is the `chrome.windows.create` callback of a fresh
invocation for a not-yet-approved origin (schedule the timeout, register
the close listener, `pendingApprovals.set(origin, ...)`); `decision b`
is `handleDomainApprovalResponse` for an explicit user decision;
`closeWin w` is `chrome.windows.onRemoved` firing for window `w`;
`fire i` is invocation `i`'s 30-second timer firing (enabled only while
the timer is neither cleared nor already fired).  Each handler is copied
from the source: `decision` resolves the entry found in the map (if any)
and clears its stored timer; `closeWin w`'s listener resolves its own
invocation `w` with `popup_closed` but clears the timer stored in
whatever map entry is present; `fire i` deletes whatever map entry is
present and resolves invocation `i` with `timeout`. -/

/-- The four terminal outcomes an invocation can be resolved with. -/
inductive ApprovalOutcome where
  | approved
  | denied
  | timeout
  | popupClosed
deriving DecidableEq

/-- The `pendingApprovals` entry: which invocation's `resolve`/timer it
holds, and the popup window id. -/
structure PendingEntry where
  inv : Nat
  windowId : Nat
deriving DecidableEq

/-- Pointwise update of a function-backed map. -/
def fnUpdate {α : Type} (f : Nat → α) (k : Nat) (v : α) : Nat → α :=
  fun n => if n = k then v else f n

/-- State of the approval subsystem for one origin. -/
structure ApprovalState where
  pending : Option PendingEntry
  resolutions : Nat → List ApprovalOutcome
  timerCleared : Nat → Bool
  timerFired : Nat → Bool
  started : Nat → Bool
  listenerActive : Nat → Bool

/-- Initial state: no pending entry, nothing started or resolved. -/
def initApprovalState : ApprovalState :=
  { pending := none
    resolutions := fun _ => []
    timerCleared := fun _ => false
    timerFired := fun _ => false
    started := fun _ => false
    listenerActive := fun _ => false }

/-- Events of the approval subsystem. -/
inductive ApprovalEv where
  | start (i : Nat)
  | decision (approvedFlag : Bool)
  | closeWin (w : Nat)
  | fire (i : Nat)

/-- Whether an event is an invocation start. -/
def isStartEv : ApprovalEv → Bool
  | .start _ => true
  | _ => false

/-- One event handler step, translated from `extension/background.js`. -/
def approvalStep (s : ApprovalState) (e : ApprovalEv) : ApprovalState :=
  match e with
  | .start i =>
      if s.started i then s
      else
        { s with
          started := fnUpdate s.started i true
          listenerActive := fnUpdate s.listenerActive i true
          pending := some { inv := i, windowId := i } }
  | .decision b =>
      match s.pending with
      | none => s
      | some e0 =>
          { s with
            pending := none
            timerCleared := fnUpdate s.timerCleared e0.inv true
            resolutions := fnUpdate s.resolutions e0.inv
              (s.resolutions e0.inv ++ [if b then .approved else .denied]) }
  | .closeWin w =>
      if s.listenerActive w then
        match s.pending with
        | some e0 =>
            { s with
              pending := none
              timerCleared := fnUpdate s.timerCleared e0.inv true
              resolutions := fnUpdate s.resolutions w (s.resolutions w ++ [.popupClosed])
              listenerActive := fnUpdate s.listenerActive w false }
        | none => { s with listenerActive := fnUpdate s.listenerActive w false }
      else s
  | .fire i =>
      if s.started i && !s.timerCleared i && !s.timerFired i then
        { s with
          timerFired := fnUpdate s.timerFired i true
          pending := none
          resolutions := fnUpdate s.resolutions i (s.resolutions i ++ [.timeout]) }
      else s

/-- Run a trace of approval events from the initial state. -/
def approvalRun (evs : List ApprovalEv) : ApprovalState :=
  evs.foldl approvalStep initApprovalState

/-- Invariant of single-invocation traces (only invocation 1 started):
while the map entry is present it belongs to invocation 1 and nothing has
been resolved; once it is gone, invocation 1 has been resolved exactly
once and its timer is dead (cleared or fired). -/
def ApprovalInv (s : ApprovalState) : Prop :=
  s.started 1 = true ∧
  (∀ i, i ≠ 1 → s.started i = false) ∧
  (∀ w, w ≠ 1 → s.listenerActive w = false) ∧
  (∀ e0, s.pending = some e0 → e0.inv = 1 ∧ s.resolutions 1 = [] ∧
    s.timerCleared 1 = false ∧ s.timerFired 1 = false) ∧
  (s.pending = none → (s.resolutions 1).length = 1 ∧
    (s.timerCleared 1 = true ∨ s.timerFired 1 = true))

/-! ## BridgeProtocol reply targeting and the approval gate
(`extension/bridge_content.js`)

`pendingRequests` maps `requestId` to the recorded origin; replies to a
lookup request compute their target as `requestInfo?.origin || "*"`.  The
auth-status handler (`handleAuthStatusRequest`, lines 214-261) posts its
reply with the literal target `"*"` in all four branches. -/

/-- Look up a pending-route entry by requestId. -/
def lookupRoute (pending : List (String × String)) (requestId : String) : Option String :=
  match pending.find? fun kv => kv.1 = requestId with
  | some kv => some kv.2
  | none => none

/-- The target origin computed for a lookup-reply:
`requestInfo?.origin || "*"` (the recorded origin when the route entry is
present and truthy, the wildcard otherwise). -/
def bridgeReplyTarget (pending : List (String × String)) (requestId : String) : String :=
  match lookupRoute pending requestId with
  | some origin => if origin = "" then "*" else origin
  | none => "*"

/-- The `SREM_AUTH_STATUS_RESPONSE` payload. -/
structure AuthStatusMsg where
  requestId : String
  authenticated : Bool
  status : String
  message : String
deriving DecidableEq

/-- The background `getAuthStatus` response body, as the content script
reads it. -/
structure AuthStatusResp where
  authenticated : Bool
  status : String
  message : String
deriving DecidableEq

/-- Outcome of the `chrome.runtime.sendMessage({type: "getAuthStatus"})`
call as observed by the content script: the runtime context can be
unavailable, the callback can see `chrome.runtime.lastError`, or it
receives a (possibly undefined) response. -/
inductive AuthChromeOutcome where
  | contextUnavailable
  | lastError
  | ok (resp : Option AuthStatusResp)

/-- `handleAuthStatusRequest` (`extension/bridge_content.js` lines
214-261): returns the posted message's target origin and payload.  Every
branch of the source passes the literal `"*"` to `postMessage`. -/
def handleAuthStatusRequest (requestId : String) (r : AuthChromeOutcome) :
    String × AuthStatusMsg :=
  match r with
  | .contextUnavailable =>
      ("*", { requestId := requestId, authenticated := false, status := "error",
              message := "Extension context not available. Please reload the page." })
  | .lastError =>
      ("*", { requestId := requestId, authenticated := false, status := "error",
              message := "Extension context invalidated. Please reload the page." })
  | .ok resp =>
      ("*", { requestId := requestId
              authenticated := match resp with | some a => a.authenticated | none => false
              status := jsOrStr (resp.map fun a => a.status) "unknown"
              message := jsOrStr (resp.map fun a => a.message) "Unknown status" })

/-- The background `case "checkDomainApproval"` handler
(`extension/background.js` line 417) replies with
`whitelist.requestApproval(message.origin)`'s resolution — the result
OBJECT itself, not a boolean — so the value delivered to the content
script's callback is an object. -/
def checkDomainApprovalReply (flowResolution : ApprovalFlowResult) : JSVal :=
  JSVal.approvalObj flowResolution

/-- The `SREM_EXTENSION_PING` listener branch
(`extension/bridge_content.js` lines 57-79): the callback tests
`if (approved)` on the value received from `checkDomainApproval` and, when
truthy, posts `SREM_EXTENSION_PONG` to the event origin; otherwise it
posts nothing.  Returns the list of (target, type) messages posted. -/
def pingReplies (origin : String) (approvalReply : JSVal) : List (String × String) :=
  if jsTruthy approvalReply then [(origin, "SREM_EXTENSION_PONG")] else []

/-- JavaScript `s.trim()` on a Lean string. -/
def trimStr (s : String) : String :=
  String.mk (jsTrim s.data)

/-! ## FetchOrchestrator: per-record classification (`handleDeedRequest`,
`extension/background.js` lines 296-361)

One loop iteration fetches a single deed.  Its observable input is the
transport outcome: either the `fetch` call rejected (network/context
failure) or it returned an HTTP status, status text, and a JSON-parse
result (`Except` for the parse failure, `Option` because the parsed body
can be JSON `null`).  The iteration classifies that outcome into one
`DeedResult` pushed onto `results`. -/

/-- The provider error structure `ErrorDetails[i].ErrorDescription`
(description may be absent). -/
structure SremErrorDetail where
  errorDescription : Option String
deriving DecidableEq

/-- Parsed SREM response body, as far as `handleDeedRequest` inspects it:
the provider success flag `IsSuccess` (absent field modelled `none`),
`ErrorList` and `ErrorDetails` (absent lists collapse to `[]`, which the
optional-chaining access treats identically). -/
structure SremBody where
  isSuccess : Option Bool
  errorList : List String
  errorDetails : List SremErrorDetail
deriving DecidableEq

/-- The provider error extraction
`data?.ErrorList?.[0] || data?.ErrorDetails?.[0]?.ErrorDescription || "Unknown SREM error"`. -/
def providerError (body : Option SremBody) : String :=
  jsOrStr (body.bind fun b => b.errorList.head?)
    (jsOrStr ((body.bind fun b => b.errorDetails.head?).bind fun d => d.errorDescription)
      "Unknown SREM error")

/-- One per-item `DeedResult` record. -/
structure DeedResult where
  deedNumber : String
  success : Bool
  data : Option SremBody
  error : Option String
deriving DecidableEq

/-- Transport outcome of the `fetch` call for one deed. -/
inductive TransportResult where
  | netError (msg : String)
  | http (status : Nat) (statusText : String) (body : Except String (Option SremBody))

/-- `response.ok`: HTTP status in the 200-299 range. -/
def responseOk (status : Nat) : Bool :=
  200 ≤ status ∧ status ≤ 299

/-- The `DeedResult` pushed by the `catch` branch of the loop body. -/
def thrownResult (deedNumber msg : String) : DeedResult :=
  { deedNumber := trimStr deedNumber, success := false, data := none, error := some msg }

/-- One iteration of the `handleDeedRequest` loop body
(`extension/background.js`): the status-specific `throw`s, the JSON-parse
`throw`, and the final classification push; every `throw` lands in the
`catch` branch `results.push({deedNumber, success:false, data:null,
error})`. -/
def fetchDeedItem (deedNumber : String) (t : TransportResult) : DeedResult :=
  match t with
  | .netError msg => thrownResult deedNumber msg
  | .http status statusText jsonResult =>
      if status = 401 then
        thrownResult deedNumber "Authentication expired. Please login to SREM again."
      else if status = 503 then
        thrownResult deedNumber "SREM service is temporarily unavailable (503). Please try again later."
      else if status = 500 then
        thrownResult deedNumber "SREM internal server error (500). Please try again later."
      else if status = 404 then
        thrownResult deedNumber "SREM API endpoint not found (404). Please check your request."
      else if !responseOk status then
        thrownResult deedNumber ("SREM API error: HTTP " ++ toString status ++ " " ++ statusText)
      else
        match jsonResult with
        | .error m =>
            thrownResult deedNumber ("SREM API returned invalid JSON response: " ++ m)
        | .ok body =>
            let isHttpOk := responseOk status
            let isSremSuccess := match body with
              | some b => b.isSuccess = some true
              | none => false
            let overallSuccess := isHttpOk && isSremSuccess
            { deedNumber := trimStr deedNumber
              success := overallSuccess
              data := if isHttpOk then body else none
              error :=
                if overallSuccess then none
                else if !isHttpOk then
                  some ("HTTP " ++ toString status ++ ": " ++ statusText)
                else some (providerError body) }

/-! ## ResponseFormatter (`extension/response-formatter.js`, identical copy
in `shared-utils.js`) -/

/-- Interpolation of a possibly-null string into a template literal
(JS renders `null` as the text `null`). -/
def jsTemplateOpt (o : Option String) : String :=
  match o with
  | some s => s
  | none => "null"

/-- Metadata block of a bridge response. -/
structure BridgeMetadata where
  totalRequested : Nat
  totalSuccessful : Nat
  totalFailed : Nat
  failures : List (String × Option String)
deriving DecidableEq

/-- The `SREM_BRIDGE_RESPONSE` shape. -/
structure BridgeResponse where
  type : String
  requestId : String
  success : Bool
  result : List (Option SremBody)
  error : Option String
  authStatus : String
  metadata : BridgeMetadata
deriving DecidableEq

/-- The `{result: [...]}` artifact-export shape. -/
structure DataResponse where
  result : List (Option SremBody)
deriving DecidableEq

namespace ResponseFormatter

/-- `ResponseFormatter._buildErrorMessage(failedResults)`. -/
def buildErrorMessage (failedResults : List DeedResult) : Option String :=
  match failedResults with
  | [] => none
  | [r] => r.error
  | r :: _ :: _ =>
      some (toString failedResults.length ++ " deeds failed. First error: " ++
        jsTemplateOpt r.error)

/-- `ResponseFormatter.formatDataResponse(sremResults)`. -/
def formatDataResponse (sremResults : List DeedResult) : DataResponse :=
  let successfulResults := sremResults.filter fun r => r.success && r.data.isSome
  { result := successfulResults.map fun r => r.data }

/-- `ResponseFormatter.formatBridgeResponse(requestId, sremResults, authStatus)`. -/
def formatBridgeResponse (requestId : String) (sremResults : List DeedResult)
    (authStatus : String := "authenticated") : BridgeResponse :=
  let successfulResults := sremResults.filter fun r => r.success && r.data.isSome
  let failedResults := sremResults.filter fun r => !r.success
  let overallSuccess : Bool := successfulResults.length > 0
  { type := "SREM_BRIDGE_RESPONSE"
    requestId := requestId
    success := overallSuccess
    result := successfulResults.map fun r => r.data
    error := if overallSuccess then none else buildErrorMessage failedResults
    authStatus := authStatus
    metadata :=
      { totalRequested := sremResults.length
        totalSuccessful := successfulResults.length
        totalFailed := failedResults.length
        failures := failedResults.map fun r => (r.deedNumber, r.error) } }

/-- `ResponseFormatter.formatBridgeError(requestId, error, authStatus)`. -/
def formatBridgeError (requestId : String) (error : String)
    (authStatus : String := "error") : BridgeResponse :=
  { type := "SREM_BRIDGE_RESPONSE"
    requestId := requestId
    success := false
    result := []
    error := some error
    authStatus := authStatus
    metadata :=
      { totalRequested := 0, totalSuccessful := 0, totalFailed := 0, failures := [] } }

end ResponseFormatter

/-! ## RequestBuilder (`shared-utils.js`, the copy installed on
`window`/`self` and the one `background.js` imports; the stand-alone
`request-builder.js` duplicate is never assigned to `window` and is only
exported for Node tests) -/

/-- Raw inbound `event.data` fields destructured by
`RequestBuilder.extractAllParameters`. -/
structure BridgeEventData where
  requestId : JSVal
  deedNumbers : JSVal
  searchMode : JSVal
  ownerIdType : JSVal
  ownerId : JSVal
  deedDateYear : JSVal
  deedDateMonth : JSVal
  deedDateDay : JSVal
  isHijriDate : JSVal
  timestampVal : JSVal

/-- Normalized parameters produced by `extractAllParameters`
(`_safeString` fields are strings, `_safeNumber` fields optional
numbers). -/
structure BridgeParams where
  requestId : String
  deedNumbers : String
  searchMode : String
  ownerIdType : Option Int
  ownerId : String
  deedDateYear : String
  deedDateMonth : String
  deedDateDay : String
  isHijriDate : Bool
  timestamp : Option Int
deriving DecidableEq

namespace RequestBuilder

/-- `RequestBuilder._safeString(value, defaultValue)`: `null`/`undefined`
give the default, everything else is `String(value)`. -/
def safeString (value : JSVal) (defaultValue : String := "") : String :=
  match value with
  | .null => defaultValue
  | .undef => defaultValue
  | v => jsValToString v

/-- `RequestBuilder._safeNumber(value, defaultValue)`: `null`, `undefined`
and the empty string give the default, as does a `NaN` conversion;
otherwise `Number(value)`. -/
def safeNumber (value : JSVal) (defaultValue : Option Int := none) : Option Int :=
  match value with
  | .null => defaultValue
  | .undef => defaultValue
  | .str "" => defaultValue
  | v =>
      match jsValToNumber v with
      | none => defaultValue
      | some n => some n

/-- `RequestBuilder.extractAllParameters(eventData)` (`shared-utils.js`):
date components pass through `_safeString`; `timestamp` defaults to
`Date.now()`, threaded here as `now`. -/
def extractAllParameters (now : Int) (e : BridgeEventData) : BridgeParams :=
  { requestId := safeString e.requestId
    deedNumbers := safeString e.deedNumbers
    searchMode := safeString e.searchMode "owner"
    ownerIdType := safeNumber e.ownerIdType (some 1)
    ownerId := safeString e.ownerId
    deedDateYear := safeString e.deedDateYear
    deedDateMonth := safeString e.deedDateMonth
    deedDateDay := safeString e.deedDateDay
    isHijriDate := jsTruthy e.isHijriDate
    timestamp := safeNumber e.timestampVal (some now) }

/-- The `[1, 2, 5].includes(params.ownerIdType)` membership test. -/
def ownerIdTypeOk (o : Option Int) : Bool :=
  match o with
  | some n => n = 1 ∨ n = 2 ∨ n = 5
  | none => false

/-- Errors pushed for the required common parameters. -/
def commonErrors (p : BridgeParams) : List String :=
  (if p.deedNumbers = "" ∨ trimStr p.deedNumbers = "" then
    ["Deed numbers are required"] else []) ++
  (if p.requestId = "" ∨ trimStr p.requestId = "" then
    ["Request ID is required"] else []) ++
  (if ¬ (p.searchMode = "owner" ∨ p.searchMode = "date") then
    ["Search mode must be either \"owner\" or \"date\""] else [])

/-- Errors pushed in the `searchMode === 'owner'` branch. -/
def ownerErrors (p : BridgeParams) : List String :=
  (if p.ownerId = "" ∨ trimStr p.ownerId = "" then
    ["Owner ID is required for owner search"] else []) ++
  (if !ownerIdTypeOk p.ownerIdType then
    ["Owner ID type must be 1 (National), 2 (Iqama), or 5 (Commercial)"] else [])

/-- The year-validation if-chain of the `searchMode === 'date'` branch:
missing/`NaN` year first, then the Hijri range 1400-1500 when the
calendar flag is set, then the Gregorian range 1900-2100. -/
def yearErrors (p : BridgeParams) : List String :=
  if p.deedDateYear = "" ∨ parseIntJS p.deedDateYear = none then
    ["Valid deed date year is required for date search"]
  else if p.isHijriDate ∧ ((parseIntJS p.deedDateYear).getD 0 < 1400 ∨
      1500 < (parseIntJS p.deedDateYear).getD 0) then
    ["Valid Hijri year (1400-1500) is required for Hijri date search"]
  else if ¬ (p.isHijriDate = true) ∧ ((parseIntJS p.deedDateYear).getD 0 < 1900 ∨
      2100 < (parseIntJS p.deedDateYear).getD 0) then
    ["Valid Gregorian year (1900-2100) is required for Gregorian date search"]
  else []

/-- The month check of the date branch. -/
def monthErrors (p : BridgeParams) : List String :=
  if p.deedDateMonth = "" ∨ parseIntJS p.deedDateMonth = none ∨
      (parseIntJS p.deedDateMonth).getD 0 < 1 ∨ 12 < (parseIntJS p.deedDateMonth).getD 0 then
    ["Valid deed date month (1-12) is required for date search"]
  else []

/-- The day check of the date branch. -/
def dayErrors (p : BridgeParams) : List String :=
  if p.deedDateDay = "" ∨ parseIntJS p.deedDateDay = none ∨
      (parseIntJS p.deedDateDay).getD 0 < 1 ∨ 31 < (parseIntJS p.deedDateDay).getD 0 then
    ["Valid deed date day (1-31) is required for date search"]
  else []

/-- All errors accumulated by `validateAndBuildRequest`, in push order. -/
def validationErrors (now : Int) (raw : BridgeEventData) : List String :=
  let p := extractAllParameters now raw
  commonErrors p ++
    (if p.searchMode = "owner" then ownerErrors p
     else if p.searchMode = "date" then yearErrors p ++ monthErrors p ++ dayErrors p
     else [])

/-- Result shape of `validateAndBuildRequest`. -/
structure ValidationResult where
  success : Bool
  errors : List String
  data : Option BridgeParams
deriving DecidableEq

/-- `RequestBuilder.validateAndBuildRequest(rawParams)` (`shared-utils.js`
lines 156-207). -/
def validateAndBuildRequest (now : Int) (raw : BridgeEventData) : ValidationResult :=
  let errors := validationErrors now raw
  if errors.length > 0 then { success := false, errors := errors, data := none }
  else { success := true, errors := [], data := some (extractAllParameters now raw) }

/-- Splitting at every separator character of the class `[,;\s:\n\r]`.
Splitting at each separator, rather than at maximal separator runs as the
regex `[,;\s:\n\r]+` does, inserts extra empty pieces between adjacent
separators; the pipeline's `.filter(num => num.length > 0)` removes
exactly those, so `parseDeedNumbers` below computes the same final list
as the source. -/
def splitSep : List Char → List (List Char)
  | [] => [[]]
  | c :: cs =>
      if isDeedSep c then [] :: splitSep cs
      else
        match splitSep cs with
        | t :: ts => (c :: t) :: ts
        | [] => [[c]]

/-- `RequestBuilder.parseDeedNumbers(deedNumbersString)`: non-strings and
the (falsy) empty string give `[]`; otherwise split on separators, trim
each token, and drop empty tokens. -/
def parseDeedNumbers : JSVal → List (List Char)
  | .str s =>
      if s = "" then []
      else ((splitSep s.data).map jsTrim).filter fun t => 0 < t.length
  | _ => []

end RequestBuilder

/-- A concrete date-mode request with month 13, for the C9 witness. -/
def sampleDateRequest : BridgeEventData :=
  { requestId := .str "r1"
    deedNumbers := .str "123"
    searchMode := .str "date"
    ownerIdType := .undef
    ownerId := .undef
    deedDateYear := .str "2024"
    deedDateMonth := .str "13"
    deedDateDay := .str "10"
    isHijriDate := .bool false
    timestampVal := .undef }

/-- Empty whitelist, for concrete evaluations. -/
def emptyWhitelist : Whitelist := fun _ => none

/-- A concrete batch with one successful and one failed item, for
witnesses. -/
def sampleResults : List DeedResult :=
  [ { deedNumber := "1", success := true
      data := some { isSuccess := some true, errorList := [], errorDetails := [] }
      error := none }
  , { deedNumber := "2", success := false, data := none, error := some "boom" } ]

/-- On a batch whose items satisfy the DeedResult well-formedness
direction `success → data present`, the formatter's successful-item filter
`r.success && r.data` coincides with filtering on the success flag. -/
lemma filter_success_of_wf (rs : List DeedResult)
    (hwf : ∀ r ∈ rs, r.success = true → r.data.isSome = true) :
    (rs.filter fun r => r.success && r.data.isSome) = rs.filter fun r => r.success := by
  induction rs with
  | nil => rfl
  | cons r rest ih =>
      have hrest := ih fun x hx h => hwf x (List.mem_cons_of_mem _ hx) h
      cases hs : r.success with
      | false => simp [List.filter_cons, hs, hrest]
      | true =>
          have hd := hwf r (List.mem_cons_self _ _) hs
          simp [List.filter_cons, hs, hd, hrest]

/-- Counting the complement of a filter. -/
lemma length_filter_not {α : Type} (p : α → Bool) (l : List α) :
    (l.filter fun a => !p a).length = l.length - (l.filter p).length := by
  induction l with
  | nil => rfl
  | cons a l ih =>
      have hle := l.length_filter_le p
      by_cases h : p a = true <;>
        simp [List.filter_cons, h, ih] <;> omega

/-! ## Claim theorems: trust store and formatter -/

/-- C5, counterexample: the claim's restatement `an entry counts as
approved iff now < expiresAt` fails at the boundary instant.  After
`approve` at time 0 with a 1-day duration, `expiresAt = 86400000`; a check
at exactly `now = 86400000` answers `true` (the code tests
`Date.now() > domain.expires`), while `now < expiresAt` is false. -/
theorem isApproved_at_expiry_boundary :
    (DomainWhitelist.isApproved 86400000
        (DomainWhitelist.approve 0 emptyWhitelist "https://a.example" 1)
        "https://a.example").1 = true ∧
      ¬ ((86400000 : Int) < 0 + 1 * 24 * 60 * 60 * 1000) := by
  constructor
  · rfl
  · decide

/-- C5 (amended): after `approve(O, D)` at time `t`, `isApproved(O)` at
time `now` answers `true` iff `now ≤ t + D` days (in milliseconds) — so
any check strictly before expiry answers `true` and any check strictly
after answers `false` — and a check strictly after expiry deletes the
entry. -/
theorem isApproved_window (t D now : Int) (w : Whitelist) (origin : String) :
    ((DomainWhitelist.isApproved now (DomainWhitelist.approve t w origin D) origin).1 = true ↔
        now ≤ t + D * 24 * 60 * 60 * 1000) ∧
    (t + D * 24 * 60 * 60 * 1000 < now →
      (DomainWhitelist.isApproved now (DomainWhitelist.approve t w origin D) origin).2 origin
        = none) := by
  have happ : DomainWhitelist.approve t w origin D origin
      = some { approved := t, expires := t + D * 24 * 60 * 60 * 1000, days := D, uses := 0,
               lastUsed := t } := by
    simp [DomainWhitelist.approve, Whitelist.set]
  constructor
  · by_cases h : t + D * 24 * 60 * 60 * 1000 < now
    · simp [DomainWhitelist.isApproved, happ, h]
      try omega
    · simp [DomainWhitelist.isApproved, happ, h]
      try omega
  · intro h
    simp [DomainWhitelist.isApproved, happ, h, Whitelist.set]

/-- Witness for C5's amended theorem at concrete inputs: a check before
expiry answers `true`, and a check after expiry deletes the entry. -/
theorem isApproved_window_witness :
    (DomainWhitelist.isApproved 5
        (DomainWhitelist.approve 0 emptyWhitelist "https://a.example" 1)
        "https://a.example").1 = true ∧
    (DomainWhitelist.isApproved 100000000
        (DomainWhitelist.approve 0 emptyWhitelist "https://a.example" 1)
        "https://a.example").2 "https://a.example" = none :=
  ⟨(isApproved_window 0 1 5 emptyWhitelist "https://a.example").1.mpr (by decide),
   (isApproved_window 0 1 100000000 emptyWhitelist "https://a.example").2 (by decide)⟩

/-- C6, counterexample: an HTTP-successful response whose provider flag
`IsSuccess` is `false` yields a `DeedResult` with `success = false` but
`data` non-null (the raw body is retained) and `error` non-null — so
"success=false implies data is null" fails on the code. -/
theorem deed_result_provider_failure_counterexample :
    (fetchDeedItem "123" (.http 200 "OK" (.ok (some
        { isSuccess := some false, errorList := ["Deed not found"], errorDetails := [] })))).success
      = false ∧
    (fetchDeedItem "123" (.http 200 "OK" (.ok (some
        { isSuccess := some false, errorList := ["Deed not found"], errorDetails := [] })))).data
      ≠ none ∧
    (fetchDeedItem "123" (.http 200 "OK" (.ok (some
        { isSuccess := some false, errorList := ["Deed not found"], errorDetails := [] })))).error
      ≠ none := by
  exact ⟨rfl, by decide, by decide⟩

/-- C6 (amended): in every `DeedResult` produced by the per-record fetch
loop, `success = true` implies `data` non-null and `error` null, and
`success = false` implies `error` non-null; but on a transport-successful,
provider-failed item the raw body is retained, so `data` need not be null
when `success = false`. -/
theorem deed_result_field_pairing (dn : String) (t : TransportResult) :
    ((fetchDeedItem dn t).success = true →
      (fetchDeedItem dn t).data.isSome = true ∧ (fetchDeedItem dn t).error = none) ∧
    ((fetchDeedItem dn t).success = false → (fetchDeedItem dn t).error.isSome = true) := by
  cases t with
  | netError msg => simp [fetchDeedItem, thrownResult]
  | http status statusText jsonResult =>
      simp only [fetchDeedItem]
      by_cases h1 : status = 401
      · simp [h1, thrownResult]
      by_cases h2 : status = 503
      · simp [h1, h2, thrownResult]
      by_cases h3 : status = 500
      · simp [h1, h2, h3, thrownResult]
      by_cases h4 : status = 404
      · simp [h1, h2, h3, h4, thrownResult]
      by_cases h5 : responseOk status = true
      case neg => simp [h1, h2, h3, h4, h5, thrownResult]
      case pos =>
        cases jsonResult with
        | error m => simp [h1, h2, h3, h4, h5, thrownResult]
        | ok body =>
            cases body with
            | none => simp [h1, h2, h3, h4, h5]
            | some b =>
                by_cases hb : b.isSuccess = some true
                · simp [h1, h2, h3, h4, h5, hb]
                · simp [h1, h2, h3, h4, h5, hb]

/-- Witness for C6's amended theorem: the success pairing at a concrete
provider-success input, the failure pairing at a concrete network
failure. -/
theorem deed_result_field_pairing_witness :
    ((fetchDeedItem "1" (.http 200 "OK" (.ok (some
        { isSuccess := some true, errorList := [], errorDetails := [] })))).data.isSome = true ∧
      (fetchDeedItem "1" (.http 200 "OK" (.ok (some
        { isSuccess := some true, errorList := [], errorDetails := [] })))).error = none) ∧
    (fetchDeedItem "2" (.netError "net down")).error.isSome = true :=
  ⟨(deed_result_field_pairing "1" (.http 200 "OK" (.ok (some
      { isSuccess := some true, errorList := [], errorDetails := [] })))).1 (by decide),
   (deed_result_field_pairing "2" (.netError "net down")).2 (by decide)⟩

/-- C7: on a well-formed batch (every successful item carries data) of
length `N` with `K` successful items, `formatBridgeResponse` yields
`success = (K > 0)`, `result.length = K`, `totalSuccessful = K`,
`totalFailed = N - K`; `error` is null whenever `K ≥ 1`, and when `K = 0`
it equals the single failing item's error for `N = 1` and a count-prefixed
aggregate message for `N > 1`. -/
theorem formatBridgeResponse_counts (requestId authStatus : String) (rs : List DeedResult)
    (hwf : ∀ r ∈ rs, r.success = true → r.data.isSome = true) :
    (ResponseFormatter.formatBridgeResponse requestId rs authStatus).success
      = decide (0 < (rs.filter fun r => r.success).length) ∧
    (ResponseFormatter.formatBridgeResponse requestId rs authStatus).result.length
      = (rs.filter fun r => r.success).length ∧
    (ResponseFormatter.formatBridgeResponse requestId rs authStatus).metadata.totalSuccessful
      = (rs.filter fun r => r.success).length ∧
    (ResponseFormatter.formatBridgeResponse requestId rs authStatus).metadata.totalFailed
      = rs.length - (rs.filter fun r => r.success).length ∧
    (0 < (rs.filter fun r => r.success).length →
      (ResponseFormatter.formatBridgeResponse requestId rs authStatus).error = none) ∧
    ((rs.filter fun r => r.success).length = 0 → ∀ r, rs = [r] →
      (ResponseFormatter.formatBridgeResponse requestId rs authStatus).error = r.error) ∧
    ((rs.filter fun r => r.success).length = 0 → 1 < rs.length →
      ∃ e, (ResponseFormatter.formatBridgeResponse requestId rs authStatus).error
        = some (toString rs.length ++ " deeds failed. First error: " ++ e)) := by
  have hfilt := filter_success_of_wf rs hwf
  refine ⟨?_, ?_, ?_, ?_, ?_, ?_, ?_⟩
  · simp [ResponseFormatter.formatBridgeResponse, hfilt]
  · simp [ResponseFormatter.formatBridgeResponse, hfilt]
  · simp [ResponseFormatter.formatBridgeResponse, hfilt]
  · simp only [ResponseFormatter.formatBridgeResponse]
    exact length_filter_not (fun r => r.success) rs
  · intro h
    simp [ResponseFormatter.formatBridgeResponse, hfilt, h]
  · rintro h r rfl
    have hr : r.success = false := by
      by_contra hr
      simp [List.filter_cons, eq_true_of_ne_false hr] at h
    simp [ResponseFormatter.formatBridgeResponse, hfilt, List.filter_cons, hr,
      ResponseFormatter.buildErrorMessage]
  · intro h hlen
    have hnil : (rs.filter fun r => r.success) = [] := List.length_eq_zero.mp h
    have hall : ∀ r ∈ rs, r.success = false := by
      intro r hr
      by_contra hrs
      have : r ∈ rs.filter fun r => r.success :=
        List.mem_filter.mpr ⟨hr, eq_true_of_ne_false hrs⟩
      simp [hnil] at this
    have hfail : (rs.filter fun r => !r.success) = rs :=
      List.filter_eq_self.mpr fun a ha => by simp [hall a ha]
    obtain ⟨a, rest, rfl⟩ : ∃ a rest, rs = a :: rest := by
      cases rs with
      | nil => simp at hlen
      | cons a r => exact ⟨a, r, rfl⟩
    obtain ⟨b, tl, rfl⟩ : ∃ b tl, rest = b :: tl := by
      cases rest with
      | nil => simp at hlen
      | cons b t => exact ⟨b, t, rfl⟩
    refine ⟨jsTemplateOpt a.error, ?_⟩
    have hzero : ((a :: b :: tl).filter fun r => r.success && r.data.isSome) = [] := by
      rw [hfilt]
      exact hnil
    simp only [ResponseFormatter.formatBridgeResponse, hzero, hfail,
      ResponseFormatter.buildErrorMessage, List.length_nil]
    simp

/-- Witness for C7 at the concrete two-item batch `sampleResults`. -/
theorem formatBridgeResponse_counts_witness :
    (ResponseFormatter.formatBridgeResponse "r" sampleResults "authenticated").result.length
        = (sampleResults.filter fun r => r.success).length ∧
    (ResponseFormatter.formatBridgeResponse "r" sampleResults "authenticated").metadata.totalFailed
        = sampleResults.length - (sampleResults.filter fun r => r.success).length :=
  ⟨(formatBridgeResponse_counts "r" "authenticated" sampleResults (by decide)).2.1,
   (formatBridgeResponse_counts "r" "authenticated" sampleResults (by decide)).2.2.2.1⟩

/-- Membership in an error list forces the failure result shape. -/
lemma validate_fails_of_mem (now : Int) (raw : BridgeEventData) (e : String)
    (h : e ∈ RequestBuilder.validationErrors now raw) :
    (RequestBuilder.validateAndBuildRequest now raw).success = false ∧
      e ∈ (RequestBuilder.validateAndBuildRequest now raw).errors := by
  have hlen : 0 < (RequestBuilder.validationErrors now raw).length :=
    List.length_pos.mpr (List.ne_nil_of_mem h)
  simp only [RequestBuilder.validateAndBuildRequest, if_pos hlen]
  exact ⟨trivial, h⟩

/-- `parseIntJS` of the empty string is `NaN`. -/
lemma parseIntJS_empty : parseIntJS "" = none := rfl

/-- A string that parses to a number is not empty. -/
lemma ne_empty_of_parseIntJS (s : String) (y : Int) (h : parseIntJS s = some y) :
    ¬ s = "" := by
  intro hs
  rw [hs, parseIntJS_empty] at h
  cases h

/-- C9: in date mode, validation rejects a month outside [1,12] and a day
outside [1,31]; with the Hijri flag set a year outside 1400-1500 is
rejected (even one inside the Gregorian range), and with the flag unset a
year outside 1900-2100 is rejected. -/
theorem validateAndBuildRequest_date_ranges (now : Int) (raw : BridgeEventData)
    (hmode : (RequestBuilder.extractAllParameters now raw).searchMode = "date") :
    (∀ m : Int,
      parseIntJS (RequestBuilder.extractAllParameters now raw).deedDateMonth = some m →
      (m < 1 ∨ 12 < m) →
      (RequestBuilder.validateAndBuildRequest now raw).success = false ∧
        "Valid deed date month (1-12) is required for date search"
          ∈ (RequestBuilder.validateAndBuildRequest now raw).errors) ∧
    (∀ d : Int,
      parseIntJS (RequestBuilder.extractAllParameters now raw).deedDateDay = some d →
      (d < 1 ∨ 31 < d) →
      (RequestBuilder.validateAndBuildRequest now raw).success = false ∧
        "Valid deed date day (1-31) is required for date search"
          ∈ (RequestBuilder.validateAndBuildRequest now raw).errors) ∧
    (∀ y : Int,
      parseIntJS (RequestBuilder.extractAllParameters now raw).deedDateYear = some y →
      (RequestBuilder.extractAllParameters now raw).isHijriDate = true →
      (y < 1400 ∨ 1500 < y) →
      (RequestBuilder.validateAndBuildRequest now raw).success = false ∧
        "Valid Hijri year (1400-1500) is required for Hijri date search"
          ∈ (RequestBuilder.validateAndBuildRequest now raw).errors) ∧
    (∀ y : Int,
      parseIntJS (RequestBuilder.extractAllParameters now raw).deedDateYear = some y →
      (RequestBuilder.extractAllParameters now raw).isHijriDate = false →
      (y < 1900 ∨ 2100 < y) →
      (RequestBuilder.validateAndBuildRequest now raw).success = false ∧
        "Valid Gregorian year (1900-2100) is required for Gregorian date search"
          ∈ (RequestBuilder.validateAndBuildRequest now raw).errors) := by
  have hnotowner : ¬ (RequestBuilder.extractAllParameters now raw).searchMode = "owner" := by
    rw [hmode]
    decide
  have hdate : ∀ e : String,
      e ∈ RequestBuilder.yearErrors (RequestBuilder.extractAllParameters now raw) ++
          RequestBuilder.monthErrors (RequestBuilder.extractAllParameters now raw) ++
          RequestBuilder.dayErrors (RequestBuilder.extractAllParameters now raw) →
      e ∈ RequestBuilder.validationErrors now raw := by
    intro e he
    simp only [RequestBuilder.validationErrors, if_neg hnotowner, if_pos hmode]
    exact List.mem_append_right _ he
  refine ⟨?_, ?_, ?_, ?_⟩
  · intro m hm hrange
    refine validate_fails_of_mem now raw _ (hdate _ ?_)
    have : RequestBuilder.monthErrors (RequestBuilder.extractAllParameters now raw)
        = ["Valid deed date month (1-12) is required for date search"] := by
      rw [RequestBuilder.monthErrors, if_pos]
      rw [hm]
      rcases hrange with h | h
      · exact Or.inr (Or.inr (Or.inl h))
      · exact Or.inr (Or.inr (Or.inr h))
    rw [List.mem_append]
    exact Or.inl (List.mem_append_right _ (by simp [this]))
  · intro d hd hrange
    refine validate_fails_of_mem now raw _ (hdate _ ?_)
    have : RequestBuilder.dayErrors (RequestBuilder.extractAllParameters now raw)
        = ["Valid deed date day (1-31) is required for date search"] := by
      rw [RequestBuilder.dayErrors, if_pos]
      rw [hd]
      rcases hrange with h | h
      · exact Or.inr (Or.inr (Or.inl h))
      · exact Or.inr (Or.inr (Or.inr h))
    exact List.mem_append_right _ (by simp [this])
  · intro y hy hflag hrange
    refine validate_fails_of_mem now raw _ (hdate _ ?_)
    have : RequestBuilder.yearErrors (RequestBuilder.extractAllParameters now raw)
        = ["Valid Hijri year (1400-1500) is required for Hijri date search"] := by
      rw [RequestBuilder.yearErrors, if_neg, if_pos]
      · rw [hy, hflag]
        simpa using hrange
      · push_neg
        exact ⟨ne_empty_of_parseIntJS _ y hy, by simp [hy]⟩
    rw [List.mem_append, List.mem_append]
    exact Or.inl (Or.inl (by simp [this]))
  · intro y hy hflag hrange
    refine validate_fails_of_mem now raw _ (hdate _ ?_)
    have : RequestBuilder.yearErrors (RequestBuilder.extractAllParameters now raw)
        = ["Valid Gregorian year (1900-2100) is required for Gregorian date search"] := by
      rw [RequestBuilder.yearErrors, if_neg, if_neg, if_pos]
      · rw [hy, hflag]
        simpa using hrange
      · rw [hflag]
        simp
      · push_neg
        exact ⟨ne_empty_of_parseIntJS _ y hy, by simp [hy]⟩
    rw [List.mem_append, List.mem_append]
    exact Or.inl (Or.inl (by simp [this]))

/-- Witness for C9: the concrete date request with month 13 is rejected
with the month error. -/
theorem validateAndBuildRequest_date_ranges_witness :
    (RequestBuilder.validateAndBuildRequest 0 sampleDateRequest).success = false ∧
      "Valid deed date month (1-12) is required for date search"
        ∈ (RequestBuilder.validateAndBuildRequest 0 sampleDateRequest).errors :=
  (validateAndBuildRequest_date_ranges 0 sampleDateRequest (by decide)).1 13 (by decide)
    (by decide)

/-- Every token of `splitSep` is free of separator characters. -/
lemma splitSep_no_sep : ∀ cs : List Char, ∀ t ∈ RequestBuilder.splitSep cs,
    ∀ c ∈ t, isDeedSep c = false := by
  intro cs
  induction cs with
  | nil =>
      intro t ht c hc
      simp only [RequestBuilder.splitSep, List.mem_singleton] at ht
      subst ht
      simp at hc
  | cons a cs ih =>
      intro t ht c hc
      simp only [RequestBuilder.splitSep] at ht
      by_cases ha : isDeedSep a = true
      · rw [if_pos ha] at ht
        rcases List.mem_cons.mp ht with rfl | ht2
        · simp at hc
        · exact ih t ht2 c hc
      · rw [if_neg ha] at ht
        cases hsp : RequestBuilder.splitSep cs with
        | nil =>
            rw [hsp] at ht
            rcases List.mem_cons.mp ht with rfl | h2
            · rcases List.mem_cons.mp hc with rfl | hc2
              · simpa using ha
              · simp at hc2
            · simp at h2
        | cons t0 ts =>
            rw [hsp] at ht
            rcases List.mem_cons.mp ht with rfl | h2
            · rcases List.mem_cons.mp hc with rfl | hc2
              · simpa using ha
              · exact ih t0 (hsp ▸ List.mem_cons_self t0 ts) c hc2
            · exact ih t (hsp ▸ List.mem_cons_of_mem t0 h2) c hc

/-- `dropWhile` is the identity on a list none of whose elements satisfy
the predicate. -/
lemma dropWhile_eq_self_of (p : Char → Bool) (l : List Char)
    (h : ∀ c ∈ l, p c = false) : l.dropWhile p = l := by
  cases l with
  | nil => rfl
  | cons a l =>
      rw [List.dropWhile_cons, if_neg]
      simp [h a (List.mem_cons_self a l)]

/-- Characters of a trimmed list come from the original list. -/
lemma jsTrim_subset (l : List Char) : ∀ c ∈ jsTrim l, c ∈ l := by
  intro c hc
  unfold jsTrim at hc
  rw [List.mem_reverse] at hc
  have h1 : c ∈ (l.dropWhile isJsSpace).reverse :=
    (List.dropWhile_sublist isJsSpace).subset hc
  rw [List.mem_reverse] at h1
  exact (List.dropWhile_sublist isJsSpace).subset h1

/-- Trimming is the identity on a list with no whitespace characters. -/
lemma jsTrim_eq_self (l : List Char) (h : ∀ c ∈ l, isJsSpace c = false) :
    jsTrim l = l := by
  unfold jsTrim
  rw [dropWhile_eq_self_of _ _ h,
    dropWhile_eq_self_of _ _ fun c hc => h c (List.mem_reverse.mp hc)]
  exact l.reverse_reverse

/-- C10: `parseDeedNumbers` is total over arbitrary JS values — every
non-string input yields `[]` (no exception is possible in the embedding:
the function is defined on all of `JSVal`) — and on string input every
returned token is non-empty and carries no surrounding whitespace. -/
theorem parseDeedNumbers_total_and_clean :
    (∀ v : JSVal, (∀ s, v ≠ JSVal.str s) → RequestBuilder.parseDeedNumbers v = []) ∧
    (∀ s : String, ∀ t ∈ RequestBuilder.parseDeedNumbers (JSVal.str s),
      t ≠ [] ∧ jsTrim t = t) := by
  constructor
  · intro v hv
    cases v with
    | undef => rfl
    | null => rfl
    | bool b => rfl
    | num n => rfl
    | obj => rfl
    | approvalObj r => rfl
    | str s => exact absurd rfl (hv s)
  · intro s t ht
    by_cases hs : s = ""
    · rw [RequestBuilder.parseDeedNumbers, if_pos hs] at ht
      simp at ht
    · rw [RequestBuilder.parseDeedNumbers, if_neg hs] at ht
      obtain ⟨ht1, ht2⟩ := List.mem_filter.mp ht
      obtain ⟨tok, htok, rfl⟩ := List.mem_map.mp ht1
      have hnosep : ∀ c ∈ tok, isDeedSep c = false := splitSep_no_sep s.data tok htok
      have hnospace : ∀ c ∈ jsTrim tok, isJsSpace c = false := by
        intro c hc
        have hsep := hnosep c (jsTrim_subset tok c hc)
        simp only [isDeedSep, decide_eq_false_iff_not, not_or] at hsep
        simpa using hsep.2.2.2
      refine ⟨?_, jsTrim_eq_self _ hnospace⟩
      intro h0
      rw [h0] at ht2
      simp at ht2

/-- Witness for C10: a non-string input yields `[]`, and the tokens of a
concrete multi-separator string are non-empty and trimmed. -/
theorem parseDeedNumbers_total_and_clean_witness :
    RequestBuilder.parseDeedNumbers (JSVal.num 5) = [] ∧
    (['1', '2', '3'] ≠ ([] : List Char) ∧ jsTrim ['1', '2', '3'] = ['1', '2', '3']) ∧
    RequestBuilder.parseDeedNumbers (JSVal.str "123, 456;789:  012")
      = [['1', '2', '3'], ['4', '5', '6'], ['7', '8', '9'], ['0', '1', '2']] :=
  ⟨parseDeedNumbers_total_and_clean.1 (JSVal.num 5) (by intro s; simp),
   parseDeedNumbers_total_and_clean.2 "123, 456;789:  012" ['1', '2', '3'] (by decide),
   by decide⟩

/-- One approval event preserves the single-invocation invariant. -/
lemma approvalStep_preserves (s : ApprovalState) (e : ApprovalEv)
    (hInv : ApprovalInv s) (hns : isStartEv e = false) :
    ApprovalInv (approvalStep s e) := by
  obtain ⟨h1, h2, h3, h4, h5⟩ := hInv
  cases e with
  | start i => simp [isStartEv] at hns
  | decision b =>
      cases hp : s.pending with
      | none =>
          simp only [approvalStep, hp]
          exact ⟨h1, h2, h3, h4, h5⟩
      | some e0 =>
          obtain ⟨he0, hres, hcl, hfi⟩ := h4 e0 hp
          simp only [approvalStep, hp]
          refine ⟨h1, h2, h3, ?_, ?_⟩
          · intro e1 he1
            simp at he1
          · intro _
            constructor
            · simp [fnUpdate, he0, hres]
            · left
              simp [fnUpdate, he0]
  | closeWin w =>
      by_cases hl : s.listenerActive w = true
      case neg =>
          simp only [approvalStep, if_neg hl]
          exact ⟨h1, h2, h3, h4, h5⟩
      case pos =>
          have hw : w = 1 := by
            by_contra hw
            rw [h3 w hw] at hl
            cases hl
          subst hw
          cases hp : s.pending with
          | some e0 =>
              obtain ⟨he0, hres, hcl, hfi⟩ := h4 e0 hp
              simp only [approvalStep, if_pos hl, hp]
              refine ⟨h1, h2, ?_, ?_, ?_⟩
              · intro w2 hw2
                simp [fnUpdate, hw2, h3 w2 hw2]
              · intro e1 he1
                simp at he1
              · intro _
                refine ⟨?_, Or.inl ?_⟩
                · simp [fnUpdate, hres]
                · simp [fnUpdate, he0]
          | none =>
              obtain ⟨hlen, hdead⟩ := h5 hp
              simp only [approvalStep, if_pos hl, hp]
              refine ⟨h1, h2, ?_, ?_, fun _ => ⟨hlen, hdead⟩⟩
              · intro w2 hw2
                simp [fnUpdate, hw2, h3 w2 hw2]
              · intro e1 he1
                simp only [hp] at he1
                cases he1
  | fire i =>
      by_cases hg : (s.started i && !s.timerCleared i && !s.timerFired i) = true
      case neg =>
          simp only [approvalStep, if_neg hg]
          exact ⟨h1, h2, h3, h4, h5⟩
      case pos =>
          simp only [Bool.and_eq_true, Bool.not_eq_true'] at hg
          obtain ⟨⟨hs1, hc⟩, hf⟩ := hg
          have hi : i = 1 := by
            by_contra hi
            rw [h2 i hi] at hs1
            cases hs1
          subst hi
          cases hp : s.pending with
          | none =>
              exfalso
              obtain ⟨_, hdead⟩ := h5 hp
              rcases hdead with h | h
              · rw [hc] at h
                cases h
              · rw [hf] at h
                cases h
          | some e0 =>
              obtain ⟨he0, hres, _, _⟩ := h4 e0 hp
              have hgb : (s.started 1 && !s.timerCleared 1 && !s.timerFired 1) = true := by
                simp [hs1, hc, hf]
              simp only [approvalStep, if_pos hgb]
              refine ⟨h1, h2, h3, ?_, ?_⟩
              · intro e1 he1
                simp at he1
              · intro _
                refine ⟨?_, Or.inr ?_⟩
                · simp [fnUpdate, hres]
                · simp [fnUpdate]

/-- The invariant carries along a start-free trace. -/
lemma approvalRun_inv (evs : List ApprovalEv) (h : ∀ e ∈ evs, isStartEv e = false)
    (s : ApprovalState) (hs : ApprovalInv s) :
    ApprovalInv (evs.foldl approvalStep s) := by
  induction evs generalizing s with
  | nil => exact hs
  | cons e evs ih =>
      exact ih (fun x hx => h x (List.mem_cons_of_mem _ hx)) _
        (approvalStep_preserves s e hs (h e (List.mem_cons_self _ _)))

/-- The invariant holds right after invocation 1 starts. -/
lemma approvalInv_start : ApprovalInv (approvalStep initApprovalState (.start 1)) := by
  refine ⟨?_, ?_, ?_, ?_, ?_⟩
  · simp [approvalStep, initApprovalState, fnUpdate]
  · intro i hi
    simp [approvalStep, initApprovalState, fnUpdate, hi]
  · intro w hw
    simp [approvalStep, initApprovalState, fnUpdate, hw]
  · intro e0 he0
    simp only [approvalStep, initApprovalState] at he0 ⊢
    simp at he0
    simp [← he0, fnUpdate]
  · intro hnone
    simp [approvalStep, initApprovalState] at hnone

/-- C4: a single invocation of the approval flow resolves at most once
under every ordering of its triggering signals (explicit decision, popup
close, 30-second timeout, with arbitrary repetitions), and in every
complete trace — one where the scheduled timer was either cleared or has
fired, as must eventually happen in real time — it resolves exactly
once. -/
theorem approval_flow_resolves_exactly_once (evs : List ApprovalEv)
    (hnostart : ∀ e ∈ evs, isStartEv e = false) :
    ((approvalRun (ApprovalEv.start 1 :: evs)).resolutions 1).length ≤ 1 ∧
    ((approvalRun (ApprovalEv.start 1 :: evs)).timerCleared 1 = true ∨
        (approvalRun (ApprovalEv.start 1 :: evs)).timerFired 1 = true →
      ((approvalRun (ApprovalEv.start 1 :: evs)).resolutions 1).length = 1) := by
  have hinv : ApprovalInv (approvalRun (ApprovalEv.start 1 :: evs)) := by
    have h0 := approvalInv_start
    simpa [approvalRun, List.foldl_cons] using approvalRun_inv evs hnostart _ h0
  obtain ⟨_, _, _, h4, h5⟩ := hinv
  constructor
  · cases hp : (approvalRun (ApprovalEv.start 1 :: evs)).pending with
    | some e0 =>
        rw [(h4 e0 hp).2.1]
        simp
    | none =>
        rw [(h5 hp).1]
  · intro hdead
    cases hp : (approvalRun (ApprovalEv.start 1 :: evs)).pending with
    | some e0 =>
        obtain ⟨_, _, hcl, hfi⟩ := h4 e0 hp
        rcases hdead with h | h
        · rw [hcl] at h
          cases h
        · rw [hfi] at h
          cases h
    | none => exact (h5 hp).1

/-- Witness for C4: the trace where the user decides and the timer is
thereby cleared resolves exactly once. -/
theorem approval_flow_resolves_exactly_once_witness :
    ((approvalRun [ApprovalEv.start 1, ApprovalEv.decision true]).resolutions 1).length ≤ 1 ∧
    ((approvalRun [ApprovalEv.start 1, ApprovalEv.decision true]).resolutions 1).length = 1 :=
  ⟨(approval_flow_resolves_exactly_once [ApprovalEv.decision true]
      (by intro e he; rw [List.mem_singleton] at he; subst he; rfl)).1,
   (approval_flow_resolves_exactly_once [ApprovalEv.decision true]
      (by intro e he; rw [List.mem_singleton] at he; subst he; rfl)).2 (Or.inl rfl)⟩

/-- C3, counterexample: a second `requestApproval` for the same origin
while one is outstanding overwrites the `pendingApprovals` entry
(`pendingApprovals.set(origin, ...)` is unconditional) although the first
invocation's resolution callback has not been invoked: after
`[start 1, start 2]` the map holds invocation 2's entry while invocation 1
has zero resolutions. -/
theorem pending_approval_overwrite_counterexample :
    (approvalRun [ApprovalEv.start 1]).pending = some { inv := 1, windowId := 1 } ∧
    (approvalRun [ApprovalEv.start 1]).resolutions 1 = [] ∧
    (approvalRun [ApprovalEv.start 1, ApprovalEv.start 2]).pending
      = some { inv := 2, windowId := 2 } ∧
    (approvalRun [ApprovalEv.start 1, ApprovalEv.start 2]).resolutions 1 = [] := by
  refine ⟨rfl, rfl, rfl, rfl⟩

/-- C3 (amended): at most one `PendingApproval` per origin exists at a
time only in the trivial sense that the map is keyed by origin; a second
approval request for the same origin while one is outstanding is neither
rejected nor coalesced — it replaces the existing entry without the
first's resolution callback having been invoked.  The first invocation is
resolved only later, by its own 30-second timer (which, firing, also
deletes the second invocation's map entry) or its own popup's close
listener. -/
theorem pending_approval_overwrite_amended :
    (approvalRun [ApprovalEv.start 1, ApprovalEv.start 2]).pending
      = some { inv := 2, windowId := 2 } ∧
    (approvalRun [ApprovalEv.start 1, ApprovalEv.start 2]).resolutions 1 = [] ∧
    (approvalRun [ApprovalEv.start 1, ApprovalEv.start 2, ApprovalEv.fire 1]).resolutions 1
      = [ApprovalOutcome.timeout] ∧
    (approvalRun [ApprovalEv.start 1, ApprovalEv.start 2, ApprovalEv.fire 1]).pending
      = none := by
  refine ⟨rfl, rfl, rfl, rfl⟩

/-- C1, counterexample: the auth-status reply is posted with the wildcard
target `"*"` in every branch of `handleAuthStatusRequest`, even when the
pending-route table records a specific origin for the requestId — so a
protected reply IS posted with a broadcast target. -/
theorem auth_status_reply_broadcast_counterexample :
    (handleAuthStatusRequest "r1" (.ok (some
        { authenticated := true, status := "valid", message := "Connected to SREM" }))).1
      = "*" ∧
    lookupRoute [("r1", "https://app.example")] "r1" = some "https://app.example" ∧
    "*" ≠ "https://app.example" := by
  refine ⟨rfl, rfl, by decide⟩

/-- C1 (amended): a lookup-reply is posted to the origin recorded in the
pending-route entry whenever that entry is present with a non-empty
origin (the code falls back to the wildcard only on a route miss), but
the auth-status reply is always posted with the wildcard target. -/
theorem reply_targeting_amended (pending : List (String × String))
    (requestId origin : String)
    (hfound : lookupRoute pending requestId = some origin) (hne : origin ≠ "") :
    bridgeReplyTarget pending requestId = origin ∧
    ∀ r : AuthChromeOutcome, (handleAuthStatusRequest requestId r).1 = "*" := by
  constructor
  · simp [bridgeReplyTarget, hfound, hne]
  · intro r
    cases r with
    | contextUnavailable => rfl
    | lastError => rfl
    | ok resp => rfl

/-- Witness for C1's amended theorem at a concrete route table. -/
theorem reply_targeting_amended_witness :
    bridgeReplyTarget [("r1", "https://app.example")] "r1" = "https://app.example" ∧
    (handleAuthStatusRequest "r1" AuthChromeOutcome.lastError).1 = "*" :=
  ⟨(reply_targeting_amended [("r1", "https://app.example")] "r1" "https://app.example"
      rfl (by decide)).1,
   (reply_targeting_amended [("r1", "https://app.example")] "r1" "https://app.example"
      rfl (by decide)).2 AuthChromeOutcome.lastError⟩

/-- C2, code bug: for an origin the whitelist does not approve, the
`SREM_EXTENSION_PING` branch still posts a `SREM_EXTENSION_PONG`.  The
background `checkDomainApproval` handler replies with the resolution
OBJECT of `requestApproval` (here `{approved: false, reason: "timeout"}`),
and the content script's `if (approved)` tests the truthiness of that
object, which is true even when `approved` is `false` — contradicting the
code's own comment `If not approved, no response (extension appears
dead)` and the claim. -/
theorem ping_answered_for_unapproved_origin :
    (DomainWhitelist.isApproved 1000 emptyWhitelist "https://attacker.example").1 = false ∧
    pingReplies "https://attacker.example"
        (checkDomainApprovalReply { approved := false, expiresAt := none, reason := "timeout" })
      = [("https://attacker.example", "SREM_EXTENSION_PONG")] :=
  ⟨rfl, rfl⟩

/-- C8: the `result` array of the artifact-export formatter
`formatDataResponse` is identical, element-wise and in order, to the
`result` array of `formatBridgeResponse` on the same input list — both are
the data of the items passing the `r.success && r.data` filter. -/
theorem formatDataResponse_result_eq_bridge (requestId authStatus : String)
    (rs : List DeedResult) :
    (ResponseFormatter.formatDataResponse rs).result
      = (ResponseFormatter.formatBridgeResponse requestId rs authStatus).result :=
  rfl

end Srem
